import Mathlib

/-
Verification of the spi-flash-programmer firmware (spi_flash_programmer.ino).

The firmware is shallowly embedded: the serial input is a list of byte
values (Nat, each intended < 256), serial output is a list of byte values,
and SPI bus activity is an explicit event trace.  Machine integers are
modelled as Nat with explicit truncation (percent 2^w) exactly where the C
types force truncation.
-/

namespace SpiFlash

/-! ## Hex codec (read_nibble / read_hex_* / write_nibble / write_hex_*) -/

/-- Classification of one byte by the branches of read_nibble:
ASCII 48-57 are digits, 97-102 are lowercase hex, 65-70 are uppercase hex;
everything else makes read_nibble return -1 (modelled as none). -/
def hex_digit (c : Nat) : Option Nat :=
  if 48 ≤ c ∧ c ≤ 57 then some (c - 48)
  else if 97 ≤ c ∧ c ≤ 102 then some ((c - 97) + 10)
  else if 65 ≤ c ∧ c ≤ 70 then some ((c - 65) + 10)
  else none

/-- read_nibble consumes exactly one byte from the serial stream (the C code
blocks until one is available; an exhausted stream is modelled as failure)
and classifies it.  A non-hex byte is consumed and reported as failure. -/
def read_nibble (s : List Nat) : Option Nat × List Nat :=
  match s with
  | [] => (none, [])
  | c :: rest => (hex_digit c, rest)

/-- The common loop body of read_hex_u8 / read_hex_u16 / read_hex_u32:
`n` remaining nibbles, accumulator `result` of C type with modulus `m`
(the C code does `result <<= 4; result |= tmp & 0x0F;`). -/
def read_hex_loop (m : Nat) : Nat → Nat → List Nat → Option Nat × List Nat
  | 0, result, s => (some result, s)
  | n + 1, result, s =>
    match read_nibble s with
    | (none, s') => (none, s')
    | (some tmp, s') => read_hex_loop m n (((result <<< 4) % m) ||| (tmp &&& 0x0F)) s'

/-- read_hex_u8: two nibbles into a uint8_t.  The out-parameter `value` is
assigned only after the loop succeeds, so on failure the caller's variable
keeps its previous value (modelled by returning `value` unchanged). -/
def read_hex_u8 (value : Nat) (s : List Nat) : Nat × Bool × List Nat :=
  match read_hex_loop 256 2 0 s with
  | (some result, s') => (result, true, s')
  | (none, s') => (value, false, s')

/-- read_hex_u16: four nibbles into a uint16_t, out-parameter semantics as in
read_hex_u8. -/
def read_hex_u16 (value : Nat) (s : List Nat) : Nat × Bool × List Nat :=
  match read_hex_loop 65536 4 0 s with
  | (some result, s') => (result, true, s')
  | (none, s') => (value, false, s')

/-- read_hex_u32: eight nibbles into a uint32_t, out-parameter semantics as in
read_hex_u8. -/
def read_hex_u32 (value : Nat) (s : List Nat) : Nat × Bool × List Nat :=
  match read_hex_loop 4294967296 8 0 s with
  | (some result, s') => (result, true, s')
  | (none, s') => (value, false, s')

/-- write_nibble sends one hex character: digits as 48 + v, letters as
65 + v - 10. -/
def write_nibble (value : Nat) : Nat :=
  if value < 10 then value + 48 else (value + 65) - 10

/-- write_hex_u8 unrolls the two iterations of the C loop
`write_nibble((value >> 4) & 0x0F); value <<= 4;` over a uint8_t. -/
def write_hex_u8 (value : Nat) : List Nat :=
  let v0 := value % 256
  let v1 := (v0 <<< 4) % 256
  [write_nibble ((v0 >>> 4) &&& 0x0F), write_nibble ((v1 >>> 4) &&& 0x0F)]

/-- Loop of write_hex_u16: `write_nibble((value >> 12) & 0x0F); value <<= 4;`
over a uint16_t, four times. -/
def write_hex_u16_loop : Nat → Nat → List Nat
  | 0, _ => []
  | n + 1, value =>
    write_nibble ((value >>> 12) &&& 0x0F) :: write_hex_u16_loop n ((value <<< 4) % 65536)

/-- write_hex_u16 sends four hex characters, most significant nibble first. -/
def write_hex_u16 (value : Nat) : List Nat :=
  write_hex_u16_loop 4 (value % 65536)

/-! ## CRC-32 (crc_table / crc_update / crc_buffer) -/

/-- The 16-entry nibble table from the firmware. -/
def crc_table : List Nat :=
  [0x00000000, 0x1db71064, 0x3b6e20c8, 0x26d930ac,
   0x76dc4190, 0x6b6b51f4, 0x4db26158, 0x5005713c,
   0xedb88320, 0xf00f9344, 0xd6d6a3e8, 0xcb61b38c,
   0x9b64c2b0, 0x86d3d2d4, 0xa00ae278, 0xbdbdf21c]

/-- crc_update processes one data byte in two nibble steps.  `tbl_idx` is a
uint8_t in the C code, hence the truncation percent 256 before `&&& 0x0F`. -/
def crc_update (crc : Nat) (data : Nat) : Nat :=
  let tbl_idx1 := (crc ^^^ (data >>> 0)) % 256
  let crc1 := (crc_table.getD (tbl_idx1 &&& 0x0F) 0) ^^^ (crc >>> 4)
  let tbl_idx2 := (crc1 ^^^ (data >>> 4)) % 256
  (crc_table.getD (tbl_idx2 &&& 0x0F) 0) ^^^ (crc1 >>> 4)

/-- crc_buffer folds crc_update over the 256-byte buffer, starting from ~0
and complementing the result (complement of a uint32 is xor with 2^32 - 1). -/
def crc_buffer (buffer : List Nat) : Nat :=
  (buffer.foldl crc_update 0xFFFFFFFF) ^^^ 0xFFFFFFFF

/-! ## Reference CRC-32 (from the spec: standard reflected CRC-32,
polynomial 0xEDB88320, bit at a time, initial value all-ones, final
complement) -/

/-- One bit step of the reference reflected CRC-32. -/
def crc32_bit_step (crc : Nat) : Nat :=
  if crc &&& 1 = 1 then (crc >>> 1) ^^^ 0xEDB88320 else crc >>> 1

/-- Iterated bit steps. -/
def crc32_steps : Nat → Nat → Nat
  | 0, crc => crc
  | n + 1, crc => crc32_steps n (crc32_bit_step crc)

/-- Reference byte step: xor the byte into the low bits, then eight bit
steps. -/
def crc32_ref_update (crc : Nat) (data : Nat) : Nat :=
  crc32_steps 8 (crc ^^^ data)

/-- Reference CRC-32 of a byte sequence: initial value all-ones, byte steps,
final complement. -/
def crc32_ref (data : List Nat) : Nat :=
  (data.foldl crc32_ref_update 0xFFFFFFFF) ^^^ 0xFFFFFFFF

/-! ## Page buffer (setup / read_into_buffer / dump_buffer / dump_buffer_crc) -/

/-- The buffer as initialized by setup(): the 0xDEADBEEF poison pattern
repeated over the 256 bytes. -/
def setup_buffer : List Nat :=
  List.flatten (List.replicate 64 [0xDE, 0xAD, 0xBE, 0xEF])

/-- Loop of read_into_buffer: `n` bytes remain, `counter` is the current
index.  Each iteration decodes one byte (read_hex_u8 into the local `tmp`)
and on success commits it to `buffer[counter]` immediately; the first decode
failure returns 0 with the bytes committed so far left in place. -/
def read_into_buffer_loop : Nat → Nat → List Nat → List Nat → List Nat × Bool × List Nat
  | 0, _, buffer, s => (buffer, true, s)
  | n + 1, counter, buffer, s =>
    match read_hex_loop 256 2 0 s with
    | (none, s') => (buffer, false, s')
    | (some tmp, s') => read_into_buffer_loop n (counter + 1) (buffer.set counter tmp) s'

/-- read_into_buffer: decode PAGE_SIZE = 256 bytes of hex into the buffer. -/
def read_into_buffer (buffer : List Nat) (s : List Nat) : List Nat × Bool × List Nat :=
  read_into_buffer_loop 256 0 buffer s

/-- dump_buffer writes each buffer byte as two hex characters. -/
def dump_buffer (buffer : List Nat) : List Nat :=
  (buffer.map write_hex_u8).flatten

/-- dump_buffer_crc writes the buffer CRC as high 16 bits then low 16 bits,
four hex characters each. -/
def dump_buffer_crc (buffer : List Nat) : List Nat :=
  let crc := crc_buffer buffer
  write_hex_u16 ((crc >>> 16) &&& 0xFFFF) ++ write_hex_u16 (crc &&& 0xFFFF)

/-! ## SPI opcodes, status masks and protocol constants -/

def WREN : Nat := 0x06
def RDSR : Nat := 0x05
def RDSR2 : Nat := 0x35
def RDSR3 : Nat := 0x15
def WRSR : Nat := 0x01
def WRSR2 : Nat := 0x31
def READ : Nat := 0x03
def WRITE : Nat := 0x02
def SECTOR_ERASE : Nat := 0x20
def CHIP_ERASE : Nat := 0xC7
def JEDECIDR : Nat := 0x9F

def WPS : Nat := 0x040000
def CP : Nat := 0x000400
def SRP1 : Nat := 0x000100
def BP : Nat := 0x00001C

def WRITE_PROTECTION_NONE : Nat := 0x00
def WRITE_PROTECTION_PARTIAL : Nat := 0x01
def WRITE_PROTECTION_FULL : Nat := 0x02

def WRITE_PROTECTION_CONFIGURATION_NONE : Nat := 0x00
def WRITE_PROTECTION_CONFIGURATION_LOCKED : Nat := 0x02

/-- Command tag bytes, in the order of the COMMAND_* defines. -/
def COMMAND_HELLO : Nat := 62
def COMMAND_HELP : Nat := 63
def COMMAND_BUFFER_CRC : Nat := 104
def COMMAND_BUFFER_LOAD : Nat := 108
def COMMAND_BUFFER_STORE : Nat := 115
def COMMAND_FLASH_READ : Nat := 114
def COMMAND_FLASH_WRITE : Nat := 119
def COMMAND_FLASH_ERASE_SECTOR : Nat := 107
def COMMAND_FLASH_ERASE_ALL : Nat := 110
def COMMAND_WRITE_PROTECTION_ENABLE : Nat := 112
def COMMAND_WRITE_PROTECTION_DISABLE : Nat := 117
def COMMAND_WRITE_PROTECTION_CHECK : Nat := 120
def COMMAND_STATUS_REGISTER_READ : Nat := 121
def COMMAND_ID_REGISTER_READ : Nat := 105
def COMMAND_ERROR : Nat := 33
def COMMAND_SET_CS : Nat := 42
def COMMAND_SET_OUTPUT : Nat := 111

/-- The full tag alphabet of the dispatcher. -/
def command_tags : List Nat :=
  [COMMAND_HELLO, COMMAND_HELP, COMMAND_BUFFER_CRC, COMMAND_BUFFER_LOAD,
   COMMAND_BUFFER_STORE, COMMAND_FLASH_READ, COMMAND_FLASH_WRITE,
   COMMAND_FLASH_ERASE_SECTOR, COMMAND_FLASH_ERASE_ALL,
   COMMAND_WRITE_PROTECTION_ENABLE, COMMAND_WRITE_PROTECTION_DISABLE,
   COMMAND_WRITE_PROTECTION_CHECK, COMMAND_STATUS_REGISTER_READ,
   COMMAND_ID_REGISTER_READ, COMMAND_ERROR, COMMAND_SET_CS, COMMAND_SET_OUTPUT]

/-- Arduino slave-select pin number. -/
def SS : Nat := 10

/-! ## SPI bus event trace and chip model -/

/-- Observable hardware activity: an SPI byte transfer, a chip-select write
(digitalWrite on the nCsIo pin), a delay, or a GPIO configuration/write. -/
inductive Ev where
  | xfer (b : Nat)
  | cs (level : Bool)
  | delayMs (ms : Nat)
  | pinOut (pin : Nat) (output : Bool)
  | gpio (pin : Nat) (level : Bool)
  deriving DecidableEq, Repr

/-- Model of the external SPI NOR flash chip: byte-addressable contents,
three status registers, three JEDEC id bytes, and the number of busy
status polls before the write-in-progress bit clears. -/
structure Chip where
  flash : Nat → Nat
  status1 : Nat
  status2 : Nat
  status3 : Nat
  id1 : Nat
  id2 : Nat
  id3 : Nat
  busy : Nat

/-- The 24-bit address formed by the three address-phase bytes, MSB first. -/
def addr24 (a0 a1 a2 : Nat) : Nat :=
  (a0 <<< 16) ||| (a1 <<< 8) ||| a2

/-- One status-register read: select, opcode, dummy byte to clock the value
out, deselect. -/
def rdsr_events (op : Nat) : List Ev :=
  [Ev.cs false, Ev.xfer op, Ev.xfer op, Ev.cs true]

/-- impl_wait_for_write_enable polls status register 1 until the busy bit
clears; with `busy` = n the chip reports busy n times, so the loop runs
n + 1 iterations. -/
def impl_wait_for_write_enable : Nat → List Ev
  | 0 => rdsr_events RDSR
  | n + 1 => rdsr_events RDSR ++ impl_wait_for_write_enable n

/-- The address-phase bytes of impl_read_page: comments in the source label
them bits 23-16, bits 15-8, and a constant 0 for bits 7-0. -/
def read_page_addr_bytes (address : Nat) : List Nat :=
  [(address >>> 8) &&& 0xFF, address &&& 0xFF, 0]

/-- The flash byte offset the read-page address phase selects. -/
def read_page_base (address : Nat) : Nat :=
  addr24 ((address >>> 8) &&& 0xFF) (address &&& 0xFF) 0

/-- The 256 bytes of flash starting at byte offset `base`, as uint8_t
values: what the chip's READ command clocks out sequentially. -/
def page_at (f : Nat → Nat) (base : Nat) : List Nat :=
  (List.range 256).map (fun i => f (base + i) % 256)

/-- impl_read_page: READ opcode, three address bytes, then 256 dummy 0xFF
transfers whose responses (sequential flash bytes from the 24-bit address,
the chip's READ semantics) overwrite the buffer. -/
def impl_read_page (ch : Chip) (address : Nat) : List Ev × List Nat :=
  ((Ev.xfer READ :: (read_page_addr_bytes address).map Ev.xfer)
     ++ (List.range 256).map (fun _ => Ev.xfer 0xFF),
   page_at ch.flash (read_page_base address))

/-- read_page brackets impl_read_page with chip select. -/
def read_page (ch : Chip) (address : Nat) : List Ev × List Nat :=
  let r := impl_read_page ch address
  (Ev.cs false :: r.1 ++ [Ev.cs true], r.2)

/-- impl_write_page: WRITE opcode, the same address phase as impl_read_page,
then the 256 buffer bytes. -/
def impl_write_page (buffer : List Nat) (address : Nat) : List Ev :=
  (Ev.xfer WRITE :: (read_page_addr_bytes address).map Ev.xfer)
    ++ buffer.map Ev.xfer

/-- Chip-side semantics of a page program at byte offset `base` (modelled as
an overwrite of 256 bytes). -/
def program_page (flash : Nat → Nat) (base : Nat) (buffer : List Nat) : Nat → Nat :=
  fun a => if base ≤ a ∧ a < base + 256 then buffer.getD (a - base) 0xFF else flash a

/-- write_page: write enable, delay, the page program, delay, status poll. -/
def write_page_events (ch : Chip) (buffer : List Nat) (address : Nat) : List Ev :=
  [Ev.cs false, Ev.xfer WREN, Ev.cs true, Ev.delayMs 10, Ev.cs false]
    ++ impl_write_page buffer address
    ++ [Ev.cs true, Ev.delayMs 1]
    ++ impl_wait_for_write_enable ch.busy

/-- The address-phase bytes of impl_erase_sector: the source packs the
argument's low 12 bits into the top two address bytes. -/
def erase_sector_addr_bytes (address : Nat) : List Nat :=
  [(address &&& 0x0FF0) >>> 4, (address &&& 0x000F) <<< 4, 0]

/-- impl_erase_sector: SECTOR_ERASE opcode plus its three address bytes. -/
def impl_erase_sector (address : Nat) : List Ev :=
  Ev.xfer SECTOR_ERASE :: (erase_sector_addr_bytes address).map Ev.xfer

/-- The flash byte offset the erase-sector address phase selects. -/
def erase_sector_base (address : Nat) : Nat :=
  addr24 ((address &&& 0x0FF0) >>> 4) ((address &&& 0x000F) <<< 4) 0

/-- Chip-side semantics of a 4 KiB sector erase. -/
def erase_sector_flash (flash : Nat → Nat) (base : Nat) : Nat → Nat :=
  fun a => if base ≤ a ∧ a < base + 4096 then 0xFF else flash a

/-- erase_sector: write enable, delay, the erase command, status poll. -/
def erase_sector_events (ch : Chip) (address : Nat) : List Ev :=
  [Ev.cs false, Ev.xfer WREN, Ev.cs true, Ev.delayMs 10, Ev.cs false]
    ++ impl_erase_sector address
    ++ [Ev.cs true]
    ++ impl_wait_for_write_enable ch.busy

/-- erase_all: write enable, delay, chip erase, delay, status poll. -/
def erase_all_events (ch : Chip) : List Ev :=
  [Ev.cs false, Ev.xfer WREN, Ev.cs true, Ev.delayMs 10,
   Ev.cs false, Ev.xfer CHIP_ERASE, Ev.cs true, Ev.delayMs 1]
    ++ impl_wait_for_write_enable ch.busy

/-- The 24-bit status snapshot impl_write_protection_check assembles from
the three status registers (each read is a uint8_t). -/
def check_status (ch : Chip) : Nat :=
  (ch.status1 % 256) ||| ((ch.status2 % 256) <<< 8) ||| ((ch.status3 % 256) <<< 16)

/-- The classification bytes impl_write_protection_check writes, following
the branch structure of the source exactly. -/
def impl_write_protection_check_out (statusRegister : Nat) : List Nat :=
  (if statusRegister &&& SRP1 ≠ 0 then
     write_hex_u8 WRITE_PROTECTION_CONFIGURATION_LOCKED
   else
     write_hex_u8 WRITE_PROTECTION_CONFIGURATION_NONE) ++
  (if statusRegister &&& WPS ≠ 0 then
     write_hex_u8 WRITE_PROTECTION_PARTIAL
   else if statusRegister &&& CP ≠ 0 then
     (if statusRegister &&& BP = BP then write_hex_u8 WRITE_PROTECTION_NONE
      else if statusRegister &&& BP ≠ 0 then write_hex_u8 WRITE_PROTECTION_PARTIAL
      else write_hex_u8 WRITE_PROTECTION_FULL)
   else
     (if statusRegister &&& BP = BP then write_hex_u8 WRITE_PROTECTION_FULL
      else if statusRegister &&& BP ≠ 0 then write_hex_u8 WRITE_PROTECTION_PARTIAL
      else write_hex_u8 WRITE_PROTECTION_NONE))

/-- Bus events of the three status-register reads shared by the x / y
commands. -/
def read_three_status_events : List Ev :=
  rdsr_events RDSR ++ rdsr_events RDSR2 ++ rdsr_events RDSR3

/-- Events of impl_write_protection_disable: read SR1 and SR2, then write
SR1 with the BP bits cleared and SR2 with the CP bit cleared (0xE3 and 0xFB
are the uint8_t complements of BP and of CP >> 8). -/
def impl_write_protection_disable_events (ch : Chip) : List Ev :=
  rdsr_events RDSR ++ rdsr_events RDSR2
    ++ [Ev.cs false, Ev.xfer WREN, Ev.cs true, Ev.delayMs 10,
        Ev.cs false, Ev.xfer WRSR, Ev.xfer ((ch.status1 % 256) &&& 0xE3), Ev.cs true,
        Ev.cs false, Ev.xfer WREN, Ev.cs true, Ev.delayMs 10,
        Ev.cs false, Ev.xfer WRSR2, Ev.xfer ((ch.status2 % 256) &&& 0xFB), Ev.cs true,
        Ev.delayMs 1]
    ++ impl_wait_for_write_enable ch.busy

/-- Events of impl_write_protection_enable: as for disable, but SR1 is
written with the BP bits set. -/
def impl_write_protection_enable_events (ch : Chip) : List Ev :=
  rdsr_events RDSR ++ rdsr_events RDSR2
    ++ [Ev.cs false, Ev.xfer WREN, Ev.cs true, Ev.delayMs 10,
        Ev.cs false, Ev.xfer WRSR, Ev.xfer ((ch.status1 % 256) ||| BP), Ev.cs true,
        Ev.cs false, Ev.xfer WREN, Ev.cs true, Ev.delayMs 10,
        Ev.cs false, Ev.xfer WRSR2, Ev.xfer ((ch.status2 % 256) &&& 0xFB), Ev.cs true,
        Ev.delayMs 1]
    ++ impl_wait_for_write_enable ch.busy

/-- Serial bytes of impl_status_register_read: a length byte 0x03 then the
three register values. -/
def impl_status_register_read_out (ch : Chip) : List Nat :=
  write_hex_u8 0x03 ++ write_hex_u8 (ch.status1 % 256)
    ++ write_hex_u8 (ch.status2 % 256) ++ write_hex_u8 (ch.status3 % 256)

/-- Serial bytes of impl_jedec_id_read: a length byte 0x03 then the three id
bytes. -/
def impl_jedec_id_read_out (ch : Chip) : List Nat :=
  write_hex_u8 0x03 ++ write_hex_u8 (ch.id1 % 256)
    ++ write_hex_u8 (ch.id2 % 256) ++ write_hex_u8 (ch.id3 % 256)

/-- Events of impl_jedec_id_read. -/
def impl_jedec_id_read_events : List Ev :=
  [Ev.cs false, Ev.xfer JEDECIDR, Ev.xfer 0, Ev.xfer 0, Ev.xfer 0, Ev.cs true]

/-! ## The dispatcher (loop) -/

/-- ASCII bytes of a string constant. -/
def ascii (s : String) : List Nat :=
  s.toList.map Char.toNat

/-- Serial.println output: the payload followed by CR LF. -/
def println (l : List Nat) : List Nat :=
  l ++ [13, 10]

/-- The VERSION string. -/
def VERSION : List Nat :=
  ascii "SPI Flash programmer v1.0"

/-- The help text printed by the COMMAND_HELP case, line by line. -/
def help_out : List Nat :=
  println VERSION ++
  println (ascii "  n         : erase chip") ++
  println (ascii "  kXXXXXXXX : erase 4k sector XXXXXXXX (hex)") ++
  println [] ++
  println (ascii "  rXXXXXXXX : read a page XXXXXXXX (hex) to buffer") ++
  println (ascii "  wXXXXXXXX : write buffer to a page XXXXXXXX (hex)") ++
  println [] ++
  println (ascii "  p         : enable write protection") ++
  println (ascii "  u         : disable write protection") ++
  println (ascii "  x         : check write protection") ++
  println (ascii "  y         : read status register") ++
  println (ascii "  i         : read id register") ++
  println [] ++
  println (ascii "  h         : print buffer CRC-32") ++
  println (ascii "  l         : display the buffer (in hex)") ++
  println (ascii "  sBBBBBBBB : load the buffer with a page size of data BBBBBBBB...") ++
  println [] ++
  println (ascii "  *XX       : set IO XX as CS/SS") ++
  println (ascii "  oXXYZ     : set IO XX as output, set value Z if Y!=0") ++
  println [] ++
  println (ascii "Examples:") ++
  println (ascii "  r00003700      read data from page 0x3700 into buffer") ++
  println (ascii "  scafe...3737   load the buffer with a page of data, first byte is 0xca ...")

/-- The mutable state the firmware keeps between commands: the page buffer,
the chip-select pin number, and the (external) chip. -/
structure DeviceState where
  buffer : List Nat
  nCsIo : Nat
  chip : Chip

/-- The result of one iteration of loop(): serial output bytes, hardware
events, the new device state, and the unread rest of the input. -/
structure StepResult where
  output : List Nat
  events : List Ev
  state : DeviceState
  rest : List Nat

/-- One iteration of loop(): read one command byte and dispatch on it.  An
empty input makes the real firmware block in the Serial.available loop;
that case is modelled as no activity. -/
def loop_step (st : DeviceState) (input : List Nat) : StepResult :=
  match input with
  | [] => ⟨[], [], st, []⟩
  | cmd :: s =>
    if cmd = COMMAND_HELLO then
      ⟨[COMMAND_HELLO] ++ println VERSION ++ [COMMAND_HELLO], [], st, s⟩
    else if cmd = COMMAND_FLASH_ERASE_ALL then
      ⟨[COMMAND_FLASH_ERASE_ALL], erase_all_events st.chip,
       { st with chip := { st.chip with flash := fun _ => 0xFF } }, s⟩
    else if cmd = COMMAND_FLASH_ERASE_SECTOR then
      match read_hex_u32 0 s with
      | (_, false, s') => ⟨[COMMAND_ERROR], [], st, s'⟩
      | (address, true, s') =>
        ⟨[COMMAND_FLASH_ERASE_SECTOR], erase_sector_events st.chip address,
         { st with chip := { st.chip with
             flash := erase_sector_flash st.chip.flash (erase_sector_base address) } }, s'⟩
    else if cmd = COMMAND_FLASH_READ then
      match read_hex_u32 0 s with
      | (_, false, s') => ⟨[COMMAND_ERROR], [], st, s'⟩
      | (address, true, s') =>
        let r := read_page st.chip address
        ⟨[COMMAND_FLASH_READ] ++ dump_buffer_crc r.2, r.1,
         { st with buffer := r.2 }, s'⟩
    else if cmd = COMMAND_FLASH_WRITE then
      match read_hex_u32 0 s with
      | (_, false, s') => ⟨[COMMAND_ERROR], [], st, s'⟩
      | (address, true, s') =>
        ⟨[COMMAND_FLASH_WRITE], write_page_events st.chip st.buffer address,
         { st with chip := { st.chip with
             flash := program_page st.chip.flash (read_page_base address) st.buffer } }, s'⟩
    else if cmd = COMMAND_BUFFER_LOAD then
      ⟨[COMMAND_BUFFER_LOAD] ++ dump_buffer st.buffer ++ [13, 10], [], st, s⟩
    else if cmd = COMMAND_BUFFER_CRC then
      ⟨[COMMAND_BUFFER_CRC] ++ dump_buffer_crc st.buffer ++ [13, 10], [], st, s⟩
    else if cmd = COMMAND_BUFFER_STORE then
      match read_into_buffer st.buffer s with
      | (buffer', false, s') => ⟨[COMMAND_ERROR], [], { st with buffer := buffer' }, s'⟩
      | (buffer', true, s') =>
        ⟨[COMMAND_BUFFER_STORE] ++ dump_buffer_crc buffer', [],
         { st with buffer := buffer' }, s'⟩
    else if cmd = COMMAND_WRITE_PROTECTION_CHECK then
      ⟨[COMMAND_WRITE_PROTECTION_CHECK]
         ++ impl_write_protection_check_out (check_status st.chip),
       read_three_status_events, st, s⟩
    else if cmd = COMMAND_WRITE_PROTECTION_ENABLE then
      ⟨[COMMAND_WRITE_PROTECTION_ENABLE], impl_write_protection_enable_events st.chip,
       { st with chip := { st.chip with
           status1 := (st.chip.status1 % 256) ||| BP,
           status2 := (st.chip.status2 % 256) &&& 0xFB } }, s⟩
    else if cmd = COMMAND_WRITE_PROTECTION_DISABLE then
      ⟨[COMMAND_WRITE_PROTECTION_DISABLE], impl_write_protection_disable_events st.chip,
       { st with chip := { st.chip with
           status1 := (st.chip.status1 % 256) &&& 0xE3,
           status2 := (st.chip.status2 % 256) &&& 0xFB } }, s⟩
    else if cmd = COMMAND_STATUS_REGISTER_READ then
      ⟨[COMMAND_STATUS_REGISTER_READ] ++ impl_status_register_read_out st.chip,
       read_three_status_events, st, s⟩
    else if cmd = COMMAND_ID_REGISTER_READ then
      ⟨[COMMAND_ID_REGISTER_READ] ++ impl_jedec_id_read_out st.chip,
       impl_jedec_id_read_events, st, s⟩
    else if cmd = COMMAND_SET_CS then
      match read_hex_u8 0 s with
      | (_, false, s') => ⟨[COMMAND_ERROR], [], st, s'⟩
      | (tmp8, true, s') =>
        if tmp8 ≠ st.nCsIo then
          ⟨[COMMAND_SET_CS],
           (if st.nCsIo ≠ SS then [Ev.pinOut st.nCsIo false] else [])
             ++ [Ev.pinOut tmp8 true, Ev.gpio tmp8 true],
           { st with nCsIo := tmp8 }, s'⟩
        else
          ⟨[COMMAND_SET_CS], [], st, s'⟩
    else if cmd = COMMAND_SET_OUTPUT then
      match read_hex_u16 0 s with
      | (_, false, s') => ⟨[COMMAND_ERROR], [], st, s'⟩
      | (tmp16, true, s') =>
        ⟨[COMMAND_SET_OUTPUT],
         Ev.pinOut (tmp16 >>> 8) true ::
           (if tmp16 &&& 0xF0 ≠ 0 then [Ev.gpio (tmp16 >>> 8) (tmp16 &&& 0xF != 0)] else []),
         st, s'⟩
    else if cmd = COMMAND_HELP then
      ⟨help_out, [], st, s⟩
    else
      ⟨[], [], st, s⟩

/-- A concrete chip and device state used by witness instantiations. -/
def sample_chip : Chip :=
  ⟨fun _ => 0, 0, 0, 0, 0, 0, 0, 0⟩

/-- A concrete device state: the buffer as initialized by setup(). -/
def sample_state : DeviceState :=
  ⟨setup_buffer, SS, sample_chip⟩

/-- The first classification byte as the claim states it: Locked (0x02) iff
the SRP1 bit is set, else None (0x00). -/
def wp_first_spec (s : Nat) : Nat :=
  if s &&& SRP1 ≠ 0 then WRITE_PROTECTION_CONFIGURATION_LOCKED
  else WRITE_PROTECTION_CONFIGURATION_NONE

/-- The second classification byte as the claim states it: Partial if WPS is
set; otherwise with CP set the BP bits classify invertedly (all set to None,
none set to Full, otherwise Partial), and with CP clear directly (all set to
Full, none set to None, otherwise Partial). -/
def wp_second_spec (s : Nat) : Nat :=
  if s &&& WPS ≠ 0 then WRITE_PROTECTION_PARTIAL
  else if s &&& CP ≠ 0 then
    (if s &&& BP = BP then WRITE_PROTECTION_NONE
     else if s &&& BP = 0 then WRITE_PROTECTION_FULL
     else WRITE_PROTECTION_PARTIAL)
  else
    (if s &&& BP = BP then WRITE_PROTECTION_FULL
     else if s &&& BP = 0 then WRITE_PROTECTION_NONE
     else WRITE_PROTECTION_PARTIAL)

/-- A flash image distinguishing byte offset 0x3700 from byte offset
0x370000: byte 0xAB at 0x3700 and 0x00 everywhere else. -/
def c2_flash : Nat → Nat :=
  fun a => if a = 0x3700 then 0xAB else 0

/-- The device state holding that flash image. -/
def c2_state : DeviceState :=
  ⟨setup_buffer, SS, ⟨c2_flash, 0, 0, 0, 0, 0, 0, 0⟩⟩

/-! ## Theorems -/

/-- C8: every command tag in the dispatcher's alphabet lies outside the
hex-digit character set 0-9, a-f, A-F recognized by read_nibble, so no tag
byte can be parsed as hex argument data. -/
theorem command_tags_not_hex (c : Nat) (hc : c ∈ command_tags) : hex_digit c = none := by
  fin_cases hc <;> rfl

/-- Witness for C8 at the tag h (104). -/
theorem command_tags_not_hex_witness : hex_digit 104 = none :=
  command_tags_not_hex 104 (by decide)

/-- C10: when a hex-argument decoder fails because a non-hex byte appears
among the required nibbles, it returns failure without writing its output
parameter; the returned value is the caller's previous value. -/
theorem read_hex_fail_preserves_value (value : Nat) (s : List Nat) :
    ((read_hex_u8 value s).2.1 = false → (read_hex_u8 value s).1 = value) ∧
    ((read_hex_u16 value s).2.1 = false → (read_hex_u16 value s).1 = value) ∧
    ((read_hex_u32 value s).2.1 = false → (read_hex_u32 value s).1 = value) := by
  refine ⟨?_, ?_, ?_⟩
  · intro h
    unfold read_hex_u8 at h ⊢
    rcases hr : read_hex_loop 256 2 0 s with ⟨o, s'⟩
    rcases o with _ | r
    · simp [hr]
    · rw [hr] at h
      simp at h
  · intro h
    unfold read_hex_u16 at h ⊢
    rcases hr : read_hex_loop 65536 4 0 s with ⟨o, s'⟩
    rcases o with _ | r
    · simp [hr]
    · rw [hr] at h
      simp at h
  · intro h
    unfold read_hex_u32 at h ⊢
    rcases hr : read_hex_loop 4294967296 8 0 s with ⟨o, s'⟩
    rcases o with _ | r
    · simp [hr]
    · rw [hr] at h
      simp at h

/-- Witness for C10 on the non-hex byte z (122) with previous value 7. -/
theorem read_hex_fail_preserves_value_witness :
    (read_hex_u8 7 [122]).1 = 7 ∧ (read_hex_u16 7 [122]).1 = 7 ∧
    (read_hex_u32 7 [122]).1 = 7 :=
  ⟨(read_hex_fail_preserves_value 7 [122]).1 (by decide),
   (read_hex_fail_preserves_value 7 [122]).2.1 (by decide),
   (read_hex_fail_preserves_value 7 [122]).2.2 (by decide)⟩

/-- C9: a byte that is not a recognized command tag produces no reply at
all, no hardware activity, and no state change; the dispatcher just waits
for the next command byte. -/
theorem unknown_tag_silent (st : DeviceState) (cmd : Nat) (s : List Nat)
    (h : cmd ∉ command_tags) :
    loop_step st (cmd :: s) = ⟨[], [], st, s⟩ := by
  simp only [command_tags, COMMAND_HELLO, COMMAND_HELP, COMMAND_BUFFER_CRC,
    COMMAND_BUFFER_LOAD, COMMAND_BUFFER_STORE, COMMAND_FLASH_READ, COMMAND_FLASH_WRITE,
    COMMAND_FLASH_ERASE_SECTOR, COMMAND_FLASH_ERASE_ALL, COMMAND_WRITE_PROTECTION_ENABLE,
    COMMAND_WRITE_PROTECTION_DISABLE, COMMAND_WRITE_PROTECTION_CHECK,
    COMMAND_STATUS_REGISTER_READ, COMMAND_ID_REGISTER_READ, COMMAND_ERROR,
    COMMAND_SET_CS, COMMAND_SET_OUTPUT, List.mem_cons, List.not_mem_nil, or_false,
    not_or] at h
  obtain ⟨h1, h2, h3, h4, h5, h6, h7, h8, h9, h10, h11, h12, h13, h14, h15, h16, h17⟩ := h
  simp only [loop_step, COMMAND_HELLO, COMMAND_HELP, COMMAND_BUFFER_CRC,
    COMMAND_BUFFER_LOAD, COMMAND_BUFFER_STORE, COMMAND_FLASH_READ, COMMAND_FLASH_WRITE,
    COMMAND_FLASH_ERASE_SECTOR, COMMAND_FLASH_ERASE_ALL, COMMAND_WRITE_PROTECTION_ENABLE,
    COMMAND_WRITE_PROTECTION_DISABLE, COMMAND_WRITE_PROTECTION_CHECK,
    COMMAND_STATUS_REGISTER_READ, COMMAND_ID_REGISTER_READ, COMMAND_ERROR,
    COMMAND_SET_CS, COMMAND_SET_OUTPUT,
    if_neg h1, if_neg h2, if_neg h3, if_neg h4, if_neg h5, if_neg h6, if_neg h7,
    if_neg h8, if_neg h9, if_neg h10, if_neg h11, if_neg h12, if_neg h13, if_neg h14,
    if_neg h15, if_neg h16, if_neg h17]

/-- Witness for C9 at the unknown byte Z (90). -/
theorem unknown_tag_silent_witness :
    loop_step sample_state [90] = ⟨[], [], sample_state, []⟩ :=
  unknown_tag_silent sample_state 90 [] (by decide)

/-- C5: for each command taking a hex address (erase-sector k, read-page r,
write-page w), a malformed argument makes the dispatcher reply with the
error tag and produce no SPI transfer, no chip-select activity, and no
state change. -/
theorem malformed_address_no_hardware (st : DeviceState) (cmd : Nat) (s : List Nat)
    (hc : cmd ∈ [COMMAND_FLASH_ERASE_SECTOR, COMMAND_FLASH_READ, COMMAND_FLASH_WRITE])
    (hf : (read_hex_u32 0 s).2.1 = false) :
    loop_step st (cmd :: s) = ⟨[COMMAND_ERROR], [], st, (read_hex_u32 0 s).2.2⟩ := by
  rcases hr : read_hex_u32 0 s with ⟨v, flag, s'⟩
  rw [hr] at hf
  simp only at hf
  subst hf
  simp only [List.mem_cons, List.not_mem_nil, or_false] at hc
  rcases hc with rfl | rfl | rfl <;>
  · simp only [loop_step, COMMAND_HELLO, COMMAND_HELP, COMMAND_BUFFER_CRC,
      COMMAND_BUFFER_LOAD, COMMAND_BUFFER_STORE, COMMAND_FLASH_READ, COMMAND_FLASH_WRITE,
      COMMAND_FLASH_ERASE_SECTOR, COMMAND_FLASH_ERASE_ALL, COMMAND_WRITE_PROTECTION_ENABLE,
      COMMAND_WRITE_PROTECTION_DISABLE, COMMAND_WRITE_PROTECTION_CHECK,
      COMMAND_STATUS_REGISTER_READ, COMMAND_ID_REGISTER_READ, COMMAND_ERROR,
      COMMAND_SET_CS, COMMAND_SET_OUTPUT, hr]
    norm_num

/-- Witness for C5: erase-sector with the malformed argument z (122). -/
theorem malformed_address_no_hardware_witness :
    loop_step sample_state [107, 122] = ⟨[COMMAND_ERROR], [], sample_state, []⟩ :=
  malformed_address_no_hardware sample_state 107 [122] (by decide) (by decide)

/-- C7: for every 24-bit status snapshot the write-protect check replies
with the two 2-hex-digit classification bytes described by the claim. -/
theorem write_protection_check_classification (s : Nat) (_hs : s < 2 ^ 24) :
    impl_write_protection_check_out s =
      write_hex_u8 (wp_first_spec s) ++ write_hex_u8 (wp_second_spec s) := by
  unfold impl_write_protection_check_out wp_first_spec wp_second_spec
  split_ifs <;> simp_all

/-- Witness for C7 at the snapshot with only the WPS bit set. -/
theorem write_protection_check_classification_witness :
    impl_write_protection_check_out 0x040000 =
      write_hex_u8 (wp_first_spec 0x040000) ++ write_hex_u8 (wp_second_spec 0x040000) :=
  write_protection_check_classification 0x040000 (by decide)

/-- The hex decode loop consumes exactly the bytes it inspects: a run that
succeeds consuming all of `l` succeeds identically on `l ++ rest` leaving
`rest`. -/
theorem read_hex_loop_extend (m : Nat) :
    ∀ (n acc : Nat) (l : List Nat) (r : Nat) (rest : List Nat),
      read_hex_loop m n acc l = (some r, []) →
      read_hex_loop m n acc (l ++ rest) = (some r, rest) := by
  intro n
  induction n with
  | zero =>
    intro acc l r rest h
    simp only [read_hex_loop] at h ⊢
    obtain ⟨h1, h2⟩ := Prod.mk.injEq .. ▸ h
    cases h1
    subst h2
    rfl
  | succ n ih =>
    intro acc l r rest h
    cases l with
    | nil => simp [read_hex_loop, read_nibble] at h
    | cons c l' =>
      rw [List.cons_append]
      simp only [read_hex_loop, read_nibble] at h ⊢
      cases hc : hex_digit c with
      | none => simp [hc] at h
      | some t =>
        simp only [hc] at h ⊢
        exact ih _ _ _ _ h

set_option maxRecDepth 40000 in
/-- Decoding the two hex characters of write_hex_u8 recovers the byte,
checked for all 256 byte values. -/
theorem write_hex_u8_decodes : ∀ b, b < 256 →
    read_hex_loop 256 2 0 (write_hex_u8 b) = (some b, []) := by decide

/-- Setting the element just past `done` in `done ++ t :: ts`. -/
theorem set_at_append_length (x t : Nat) :
    ∀ (done ts : List Nat), (done ++ t :: ts).set done.length x = done ++ x :: ts := by
  intro done
  induction done with
  | nil => intro ts; rfl
  | cons d ds ih => intro ts; simp [List.set_cons_succ, ih]

/-- The buffer-store loop decodes an encoded page into consecutive buffer
positions: with `done` already-written cells and `todo` matching the length
of `P`, it rewrites exactly the `todo` region with `P`. -/
theorem read_into_buffer_loop_decodes :
    ∀ (P done todo rest : List Nat), todo.length = P.length →
      (∀ x ∈ P, x < 256) →
      read_into_buffer_loop P.length done.length (done ++ todo)
          ((P.map write_hex_u8).flatten ++ rest) = (done ++ P, true, rest) := by
  intro P
  induction P with
  | nil =>
    intro done todo rest hlen _
    rw [List.length_eq_zero.mp hlen]
    simp [read_into_buffer_loop]
  | cons x xs ih =>
    intro done todo rest hlen hlt
    cases todo with
    | nil => simp at hlen
    | cons t ts =>
      simp only [List.length_cons, read_into_buffer_loop, List.map_cons,
        List.flatten_cons, List.append_assoc]
      rw [read_hex_loop_extend 256 2 0 (write_hex_u8 x) x _
        (write_hex_u8_decodes x (hlt x (List.mem_cons_self x xs)))]
      change read_into_buffer_loop xs.length (done.length + 1)
        ((done ++ t :: ts).set done.length x)
        ((List.map write_hex_u8 xs).flatten ++ rest) = (done ++ x :: xs, true, rest)
      rw [set_at_append_length]
      have hd : done ++ x :: ts = (done ++ [x]) ++ ts := by simp
      have hc : done.length + 1 = (done ++ [x]).length := by simp
      rw [hd, hc, ih (done ++ [x]) ts rest (by simpa using hlen)
        (fun y hy => hlt y (List.mem_cons_of_mem x hy))]
      simp

/-- C4: hex round-trip is lossless.  Decoding the two characters of
write_hex_u8 recovers every byte, and a full page survives
dump_buffer-then-read_into_buffer unchanged, so its CRC is unchanged. -/
theorem hex_roundtrip_lossless :
    (∀ b, b < 256 → ∀ value rest,
       read_hex_u8 value (write_hex_u8 b ++ rest) = (b, true, rest)) ∧
    (∀ P buffer rest, P.length = 256 → buffer.length = 256 → (∀ x ∈ P, x < 256) →
       read_into_buffer buffer (dump_buffer P ++ rest) = (P, true, rest) ∧
       crc_buffer (read_into_buffer buffer (dump_buffer P ++ rest)).1 = crc_buffer P) := by
  constructor
  · intro b hb value rest
    unfold read_hex_u8
    rw [read_hex_loop_extend 256 2 0 (write_hex_u8 b) b rest (write_hex_u8_decodes b hb)]
  · intro P buffer rest hP hbuf hlt
    have main : read_into_buffer buffer (dump_buffer P ++ rest) = (P, true, rest) := by
      unfold read_into_buffer dump_buffer
      have h0 : buffer = [] ++ buffer := rfl
      have h256 : (256 : Nat) = P.length := hP.symm
      rw [h0, h256, show (0 : Nat) = ([] : List Nat).length from rfl]
      rw [read_into_buffer_loop_decodes P [] buffer rest (by rw [hbuf, hP]) hlt]
      rfl
    exact ⟨main, by rw [main]⟩

set_option maxRecDepth 40000 in
/-- Witness for C4 at byte 0xCA and at the poison-pattern page stored into a
zeroed buffer. -/
theorem hex_roundtrip_lossless_witness :
    read_hex_u8 0 (write_hex_u8 0xCA ++ []) = (0xCA, true, []) ∧
    read_into_buffer (List.replicate 256 0) (dump_buffer setup_buffer ++ []) =
      (setup_buffer, true, []) :=
  ⟨hex_roundtrip_lossless.1 0xCA (by decide) 0 [],
   (hex_roundtrip_lossless.2 setup_buffer (List.replicate 256 0) []
     (by decide) (by decide) (by decide)).1⟩

/-- When the buffer-store loop fails, the run splits: some k < n byte pairs
decode successfully, the next decode fails, and the final buffer is the
buffer of the successful k-step partial run. -/
theorem read_into_buffer_loop_fail_split :
    ∀ (n counter : Nat) (buf s : List Nat),
      (read_into_buffer_loop n counter buf s).2.1 = false →
      ∃ (k : Nat) (s₂ : List Nat), k < n ∧
        (read_into_buffer_loop k counter buf s).2 = (true, s₂) ∧
        (read_hex_loop 256 2 0 s₂).1 = none ∧
        (read_into_buffer_loop n counter buf s).1 =
          (read_into_buffer_loop k counter buf s).1 := by
  intro n
  induction n with
  | zero =>
    intro counter buf s h
    simp [read_into_buffer_loop] at h
  | succ n ih =>
    intro counter buf s h
    rcases hr : read_hex_loop 256 2 0 s with ⟨o, s'⟩
    rcases o with _ | tmp
    · refine ⟨0, s, by omega, rfl, by rw [hr], ?_⟩
      simp only [read_into_buffer_loop, hr]
    · simp only [read_into_buffer_loop, hr] at h
      obtain ⟨k', s₂, hk', h2, h3, h4⟩ := ih (counter + 1) (buf.set counter tmp) s' h
      refine ⟨k' + 1, s₂, by omega, ?_, h3, ?_⟩
      · simp only [read_into_buffer_loop, hr]
        exact h2
      · simp only [read_into_buffer_loop, hr]
        exact h4

/-- A successful k-step run of the buffer-store loop writes exactly the k
decoded bytes over the next k buffer cells, leaving the rest untouched:
the result is done ++ P ++ todo.drop k for the decoded list P. -/
theorem read_into_buffer_loop_run_shape :
    ∀ (k : Nat) (done todo s s₂ : List Nat), k ≤ todo.length →
      (read_into_buffer_loop k done.length (done ++ todo) s).2 = (true, s₂) →
      ∃ P : List Nat, P.length = k ∧
        (read_into_buffer_loop k done.length (done ++ todo) s).1 =
          done ++ P ++ todo.drop k := by
  intro k
  induction k with
  | zero =>
    intro done todo s s₂ _ _
    exact ⟨[], rfl, by simp [read_into_buffer_loop]⟩
  | succ k ih =>
    intro done todo s s₂ hk h
    cases todo with
    | nil => simp at hk
    | cons t ts =>
      rcases hr : read_hex_loop 256 2 0 s with ⟨o, s'⟩
      rcases o with _ | tmp
      · simp only [read_into_buffer_loop, hr] at h
        exact absurd (congrArg Prod.fst h) (by simp)
      · simp only [read_into_buffer_loop, hr] at h ⊢
        rw [set_at_append_length] at h ⊢
        have hd : done ++ tmp :: ts = (done ++ [tmp]) ++ ts := by simp
        have hc : done.length + 1 = (done ++ [tmp]).length := by simp
        rw [hd, hc] at h ⊢
        obtain ⟨P', hP', hshape⟩ := ih (done ++ [tmp]) ts s' s₂ (by simpa using hk) h
        refine ⟨tmp :: P', by simp [hP'], ?_⟩
        rw [hshape]
        simp

/-- C1 counterexample: the buffer-store command with the six input bytes
F F z decodes the byte 0xFF, then fails on z; the dispatcher replies with
the error tag but the buffer has been mutated at index 0, refuting the
atomic-or-reject reading. -/
theorem buffer_store_not_atomic_cex :
    (read_into_buffer setup_buffer [70, 70, 122]).2.1 = false ∧
    (loop_step sample_state (COMMAND_BUFFER_STORE :: [70, 70, 122])).output =
      [COMMAND_ERROR] ∧
    (loop_step sample_state (COMMAND_BUFFER_STORE :: [70, 70, 122])).state.buffer ≠
      sample_state.buffer := by decide

/-- C1 amended: a failed buffer-store replies with the error tag and causes
no hardware activity, but the store is not atomic: for some k < 256, the
first k byte pairs of the payload decode successfully to a list P, the next
decode fails, and the PageBuffer afterwards is exactly P followed by the old
buffer from index k on - the decoded prefix is committed, everything from
the failure index is unchanged. -/
theorem buffer_store_fail_partial (st : DeviceState) (s : List Nat)
    (hlen : st.buffer.length = 256)
    (hf : (read_into_buffer st.buffer s).2.1 = false) :
    (loop_step st (COMMAND_BUFFER_STORE :: s)).output = [COMMAND_ERROR] ∧
    (loop_step st (COMMAND_BUFFER_STORE :: s)).events = [] ∧
    ∃ (k : Nat) (P s₂ : List Nat),
      k < 256 ∧ P.length = k ∧
      read_into_buffer_loop k 0 st.buffer s = (P ++ st.buffer.drop k, true, s₂) ∧
      (read_hex_loop 256 2 0 s₂).1 = none ∧
      (loop_step st (COMMAND_BUFFER_STORE :: s)).state.buffer =
        P ++ st.buffer.drop k := by
  rcases hr : read_into_buffer st.buffer s with ⟨buf', flag, s'⟩
  rw [hr] at hf
  simp only at hf
  subst hf
  have hstep : loop_step st (COMMAND_BUFFER_STORE :: s) =
      ⟨[COMMAND_ERROR], [], { st with buffer := buf' }, s'⟩ := by
    simp only [loop_step, COMMAND_HELLO, COMMAND_HELP, COMMAND_BUFFER_CRC,
      COMMAND_BUFFER_LOAD, COMMAND_BUFFER_STORE, COMMAND_FLASH_READ, COMMAND_FLASH_WRITE,
      COMMAND_FLASH_ERASE_SECTOR, COMMAND_FLASH_ERASE_ALL, COMMAND_WRITE_PROTECTION_ENABLE,
      COMMAND_WRITE_PROTECTION_DISABLE, COMMAND_WRITE_PROTECTION_CHECK,
      COMMAND_STATUS_REGISTER_READ, COMMAND_ID_REGISTER_READ, COMMAND_ERROR,
      COMMAND_SET_CS, COMMAND_SET_OUTPUT, hr]
    norm_num
  unfold read_into_buffer at hr
  obtain ⟨k, s₂, hk, h2, h3, h4⟩ :=
    read_into_buffer_loop_fail_split 256 0 st.buffer s (by rw [hr])
  obtain ⟨P, hP, hshape⟩ :=
    read_into_buffer_loop_run_shape k [] st.buffer s s₂ (by omega) h2
  simp only [List.nil_append, List.length_nil] at hshape
  refine ⟨by rw [hstep], by rw [hstep], k, P, s₂, hk, hP, ?_, h3, ?_⟩
  · rcases hq : read_into_buffer_loop k 0 st.buffer s with ⟨b1, fl, srest⟩
    rw [hq] at hshape h2
    simp only at hshape h2
    rw [hshape]
    rw [show (fl, srest) = (true, s₂) from h2]
  · rw [hstep]
    simp only
    rw [hr] at h4
    simp only at h4
    rw [h4, hshape]

set_option maxRecDepth 40000 in
/-- Witness for the amended C1 on the input F F z: one byte (0xFF) commits,
the second decode fails. -/
theorem buffer_store_fail_partial_witness :
    (loop_step sample_state (COMMAND_BUFFER_STORE :: [70, 70, 122])).output =
      [COMMAND_ERROR] ∧
    (loop_step sample_state (COMMAND_BUFFER_STORE :: [70, 70, 122])).events = [] ∧
    ∃ (k : Nat) (P s₂ : List Nat),
      k < 256 ∧ P.length = k ∧
      read_into_buffer_loop k 0 sample_state.buffer [70, 70, 122] =
        (P ++ sample_state.buffer.drop k, true, s₂) ∧
      (read_hex_loop 256 2 0 s₂).1 = none ∧
      (loop_step sample_state
          (COMMAND_BUFFER_STORE :: [70, 70, 122])).state.buffer =
        P ++ sample_state.buffer.drop k :=
  buffer_store_fail_partial sample_state [70, 70, 122] (by decide) (by decide)

/-- Bits 4 to 11 of the erase-sector argument form its first address byte. -/
theorem and_0xFF0_shr4 (a : Nat) : (a &&& 0x0FF0) >>> 4 = (a / 16) % 256 := by
  have h : (a &&& 4080) >>> 4 = (a >>> 4) &&& 255 := by
    apply Nat.eq_of_testBit_eq
    intro j
    simp only [Nat.testBit_shiftRight, Nat.testBit_and]
    have h1 : (4080 : Nat) = 255 <<< 4 := rfl
    rw [h1, Nat.testBit_shiftLeft]
    simp [Nat.add_sub_cancel_left]
  rw [h, Nat.shiftRight_eq_div_pow, show (255 : Nat) = 2 ^ 8 - 1 from rfl,
    Nat.and_pow_two_sub_one_eq_mod]

/-- The low 4 bits of the erase-sector argument form its second address
byte, shifted into the high nibble. -/
theorem and_0xF_shl4 (a : Nat) : (a &&& 0x000F) <<< 4 = (a % 16) * 16 := by
  rw [show (15 : Nat) = 2 ^ 4 - 1 from rfl, Nat.and_pow_two_sub_one_eq_mod,
    Nat.shiftLeft_eq]

/-- C6 counterexample: for argument 1 the erase-sector command does not
transmit the full 3-byte address 00 00 01 taken from the argument's low
24 bits; it transmits 00 10 00. -/
theorem erase_sector_full_address_cex :
    ¬ (impl_erase_sector 1 =
        [Ev.xfer SECTOR_ERASE, Ev.xfer ((1 >>> 16) &&& 0xFF),
         Ev.xfer ((1 >>> 8) &&& 0xFF), Ev.xfer (1 &&& 0xFF)]) := by decide

/-- C6 amended: the erase-sector command transmits the sector-erase opcode
followed by the nibble-packed legacy address phase (a / 16 mod 256,
(a mod 16) * 16, 0), so the 24-bit address it selects is
(a mod 4096) * 4096: the argument is a 4 KiB sector index, not a byte
offset. -/
theorem erase_sector_wire_format (address : Nat) :
    impl_erase_sector address =
      [Ev.xfer SECTOR_ERASE, Ev.xfer ((address / 16) % 256),
       Ev.xfer ((address % 16) * 16), Ev.xfer 0] ∧
    erase_sector_base address = (address % 4096) * 4096 := by
  constructor
  · simp only [impl_erase_sector, erase_sector_addr_bytes, List.map_cons,
      List.map_nil, and_0xFF0_shr4, and_0xF_shl4]
  · unfold erase_sector_base addr24
    rw [and_0xFF0_shr4, and_0xF_shl4, Nat.or_zero]
    have h1 : (address / 16 % 256) <<< 16 = 2 ^ 16 * (address / 16 % 256) := by
      rw [Nat.shiftLeft_eq]; ring
    have h2 : (address % 16 * 16) <<< 8 = (address % 16 * 16) * 256 := by
      rw [Nat.shiftLeft_eq]
    have hb : (address % 16 * 16) <<< 8 < 2 ^ 16 := by
      rw [h2]; omega
    rw [h1, ← Nat.mul_add_lt_is_or hb, h2]
    omega

/-- Bits 8 to 15 of the read-page argument form its first address byte. -/
theorem shr8_and_0xFF (a : Nat) : (a >>> 8) &&& 0xFF = (a / 256) % 256 := by
  rw [Nat.shiftRight_eq_div_pow, show (255 : Nat) = 2 ^ 8 - 1 from rfl,
    Nat.and_pow_two_sub_one_eq_mod]

/-- The 24-bit address phase of the read-page command selects byte offset
(address mod 65536) * 256: the argument is a 256-byte page index. -/
theorem read_page_base_eq (address : Nat) :
    read_page_base address = (address % 65536) * 256 := by
  unfold read_page_base addr24
  rw [shr8_and_0xFF, show address &&& 255 = address % 256 by
      rw [show (255 : Nat) = 2 ^ 8 - 1 from rfl, Nat.and_pow_two_sub_one_eq_mod],
    Nat.or_zero]
  have h1 : (address / 256 % 256) <<< 16 = 2 ^ 16 * (address / 256 % 256) := by
    rw [Nat.shiftLeft_eq]; ring
  have h2 : (address % 256) <<< 8 = (address % 256) * 256 := by
    rw [Nat.shiftLeft_eq]
  have hb : (address % 256) <<< 8 < 2 ^ 16 := by
    rw [h2]; omega
  rw [h1, ← Nat.mul_add_lt_is_or hb, h2]
  omega

/-- C2 counterexample: the read-page address phase is not the low 24 bits
of the argument.  For address 00003700 the claim predicts the address bytes
00 37 00 (byte offset 0x3700); the firmware transmits 37 00 00 (byte offset
0x370000), and the buffer it stores is not the page at offset 0x3700 of a
flash image that is nonzero exactly there. -/
theorem read_page_address_cex :
    (loop_step c2_state
        (COMMAND_FLASH_READ :: [48, 48, 48, 48, 51, 55, 48, 48])).events ≠
      Ev.cs false ::
        ((Ev.xfer READ :: [Ev.xfer ((0x3700 >>> 16) &&& 0xFF),
            Ev.xfer ((0x3700 >>> 8) &&& 0xFF), Ev.xfer (0x3700 &&& 0xFF)])
          ++ (List.range 256).map (fun _ => Ev.xfer 0xFF)) ++ [Ev.cs true] ∧
    (loop_step c2_state
        (COMMAND_FLASH_READ :: [48, 48, 48, 48, 51, 55, 48, 48])).state.buffer ≠
      page_at c2_flash 0x3700 := by
  constructor
  · decide
  · decide

/-- C2 amended: the read-page argument is a page index: its low 16 bits,
shifted left by 8, form the 3-byte SPI address phase, so r 00003700
followed by h yields the CRC of the 256 bytes at flash byte offset
0x370000. -/
theorem read_page_address_semantics (st : DeviceState) (rest : List Nat) :
    (∀ address, read_page_base address = ((address &&& 0xFFFF) <<< 8)) ∧
    (loop_step st (COMMAND_FLASH_READ :: ([48, 48, 48, 48, 51, 55, 48, 48] ++
        (COMMAND_BUFFER_CRC :: rest)))).output =
      COMMAND_FLASH_READ :: dump_buffer_crc (page_at st.chip.flash 0x370000) ∧
    (loop_step
        (loop_step st (COMMAND_FLASH_READ :: ([48, 48, 48, 48, 51, 55, 48, 48] ++
          (COMMAND_BUFFER_CRC :: rest)))).state
        (loop_step st (COMMAND_FLASH_READ :: ([48, 48, 48, 48, 51, 55, 48, 48] ++
          (COMMAND_BUFFER_CRC :: rest)))).rest).output =
      COMMAND_BUFFER_CRC :: (dump_buffer_crc (page_at st.chip.flash 0x370000) ++ [13, 10]) ∧
    (loop_step
        (loop_step st (COMMAND_FLASH_READ :: ([48, 48, 48, 48, 51, 55, 48, 48] ++
          (COMMAND_BUFFER_CRC :: rest)))).state
        (loop_step st (COMMAND_FLASH_READ :: ([48, 48, 48, 48, 51, 55, 48, 48] ++
          (COMMAND_BUFFER_CRC :: rest)))).rest).rest = rest := by
  refine ⟨?_, rfl, rfl, rfl⟩
  intro address
  rw [read_page_base_eq, Nat.shiftLeft_eq,
    show address &&& 65535 = address % 65536 by
      rw [show (65535 : Nat) = 2 ^ 16 - 1 from rfl, Nat.and_pow_two_sub_one_eq_mod]]


/-- Helper: xor is left-commutative. -/
theorem xor_left_comm (a b c : Nat) : a ^^^ (b ^^^ c) = b ^^^ (a ^^^ c) := by
  rw [← Nat.xor_assoc, Nat.xor_comm a b, Nat.xor_assoc]

/-- Helper: shifting right distributes over xor. -/
theorem shiftRight_xor_distrib (x y k : Nat) :
    (x ^^^ y) >>> k = (x >>> k) ^^^ (y >>> k) := by
  apply Nat.eq_of_testBit_eq
  intro j
  simp [Nat.testBit_shiftRight, Nat.testBit_xor]

/-- The reference CRC bit step is linear over xor. -/
theorem crc32_bit_step_xor (x y : Nat) :
    crc32_bit_step (x ^^^ y) = crc32_bit_step x ^^^ crc32_bit_step y := by
  have hs : (x ^^^ y) >>> 1 = (x >>> 1) ^^^ (y >>> 1) := shiftRight_xor_distrib x y 1
  unfold crc32_bit_step
  rw [Nat.and_xor_distrib_right, Nat.and_one_is_mod, Nat.and_one_is_mod]
  rcases Nat.mod_two_eq_zero_or_one x with hx | hx <;>
    rcases Nat.mod_two_eq_zero_or_one y with hy | hy <;>
      simp [hx, hy, hs, Nat.xor_assoc, Nat.xor_comm, xor_left_comm]

/-- Iterated reference bit steps are linear over xor. -/
theorem crc32_steps_xor : ∀ (n x y : Nat),
    crc32_steps n (x ^^^ y) = crc32_steps n x ^^^ crc32_steps n y := by
  intro n
  induction n with
  | zero => intro x y; rfl
  | succ n ih => intro x y; simp only [crc32_steps, crc32_bit_step_xor, ih]

/-- On an even value the reference bit step is a plain halving. -/
theorem crc32_bit_step_two_mul (q : Nat) : crc32_bit_step (2 * q) = q := by
  unfold crc32_bit_step
  have h1 : (2 * q) &&& 1 = 0 := by rw [Nat.and_one_is_mod]; omega
  rw [h1]
  have h2 : (2 * q) >>> 1 = q := by rw [Nat.shiftRight_one]; omega
  simp [h2]

/-- Four reference bit steps of a multiple of 16 divide it by 16. -/
theorem crc32_steps4_16mul (q : Nat) : crc32_steps 4 (16 * q) = q := by
  have e1 : (16 : Nat) * q = 2 * (2 * (2 * (2 * q))) := by ring
  simp only [crc32_steps, e1, crc32_bit_step_two_mul]

/-- Xor of a multiple of 16 with a nibble is their sum. -/
theorem sixteen_mul_xor_low (q r : Nat) (hr : r < 16) : 16 * q ^^^ r = 16 * q + r := by
  apply Nat.eq_of_testBit_eq
  intro j
  have h16 : (16 : Nat) * q = 2 ^ 4 * q := by norm_num
  rw [h16, Nat.testBit_xor, Nat.testBit_mul_pow_two,
    Nat.testBit_mul_pow_two_add q (show r < 2 ^ 4 by omega) j]
  by_cases hj : j < 4
  · simp [hj, show ¬(j ≥ 4) by omega]
  · have hple : (2 : Nat) ^ 4 ≤ 2 ^ j := Nat.pow_le_pow_right (by norm_num) (by omega)
    have hr0 : Nat.testBit r j = false :=
      Nat.testBit_lt_two_pow (lt_of_lt_of_le (show r < 2 ^ 4 by omega) hple)
    simp [hj, hr0, show j ≥ 4 by omega]

/-- Each firmware table entry is four reference bit steps of its index. -/
theorem crc_table_correct : ∀ r, r < 16 → crc_table.getD r 0 = crc32_steps 4 r := by
  decide

/-- Four reference bit steps coincide with one table lookup on the low
nibble xored against the shifted remainder: the table-driven nibble step. -/
theorem crc32_steps4_table (c : Nat) :
    crc32_steps 4 c = (crc_table.getD (c &&& 0x0F) 0) ^^^ (c >>> 4) := by
  have hdecomp : c = 16 * (c / 16) ^^^ (c % 16) := by
    rw [sixteen_mul_xor_low _ _ (Nat.mod_lt _ (by norm_num))]
    omega
  conv_lhs => rw [hdecomp]
  rw [crc32_steps_xor, crc32_steps4_16mul]
  have h15 : c &&& 15 = c % 16 := by
    rw [show (15 : Nat) = 2 ^ 4 - 1 from rfl, Nat.and_pow_two_sub_one_eq_mod]
  rw [show (0x0F : Nat) = 15 from rfl, h15,
    crc_table_correct (c % 16) (Nat.mod_lt _ (by norm_num)),
    Nat.shiftRight_eq_div_pow, Nat.xor_comm]

/-- Truncating to a uint8_t before masking the low nibble is harmless. -/
theorem mod256_and15 (x : Nat) : (x % 256) &&& 15 = x &&& 15 := by
  rw [show (15 : Nat) = 2 ^ 4 - 1 from rfl, Nat.and_pow_two_sub_one_eq_mod,
    Nat.and_pow_two_sub_one_eq_mod,
    Nat.mod_mod_of_dvd x (show (2 ^ 4 : Nat) ∣ 256 by norm_num)]

/-- The firmware byte step equals the reference byte step on byte data. -/
theorem crc_update_eq_ref (c d : Nat) (hd : d < 256) :
    crc_update c d = crc32_ref_update c d := by
  unfold crc_update crc32_ref_update
  have h8 : crc32_steps 8 (c ^^^ d) = crc32_steps 4 (crc32_steps 4 (c ^^^ d)) := rfl
  rw [h8, crc32_steps4_table (c ^^^ d)]
  rw [shiftRight_xor_distrib c d 4, ← Nat.xor_assoc]
  rw [crc32_steps4_table]
  rw [shiftRight_xor_distrib _ (d >>> 4) 4]
  have hd8 : (d >>> 4) >>> 4 = 0 := by
    rw [Nat.shiftRight_eq_div_pow, Nat.shiftRight_eq_div_pow]
    omega
  rw [hd8, Nat.xor_zero]
  simp only [Nat.shiftRight_zero, mod256_and15]

/-- Folding the firmware byte step equals folding the reference byte step
over any byte sequence. -/
theorem foldl_crc_eq : ∀ (l : List Nat) (c : Nat), (∀ b ∈ l, b < 256) →
    l.foldl crc_update c = l.foldl crc32_ref_update c := by
  intro l
  induction l with
  | nil => intro c _; rfl
  | cons x xs ih =>
    intro c h
    simp only [List.foldl_cons]
    rw [crc_update_eq_ref c x (h x (List.mem_cons_self x xs))]
    exact ih _ (fun b hb => h b (List.mem_cons_of_mem x hb))

/-- C3: for every 256-byte buffer, crc_buffer computes the standard
reflected CRC-32 (polynomial 0xEDB88320, table-driven, initial value
all-ones, final complement); in particular its value on an all-zero
256-byte buffer is the reference CRC-32 of 256 zero bytes. -/
theorem crc_buffer_is_crc32 (buffer : List Nat) (_hlen : buffer.length = 256)
    (hbytes : ∀ b ∈ buffer, b < 256) : crc_buffer buffer = crc32_ref buffer := by
  unfold crc_buffer crc32_ref
  rw [foldl_crc_eq buffer 0xFFFFFFFF hbytes]

/-- Witness for C3 on the all-zero 256-byte buffer. -/
theorem crc_buffer_is_crc32_witness :
    crc_buffer (List.replicate 256 0) = crc32_ref (List.replicate 256 0) :=
  crc_buffer_is_crc32 _ (List.length_replicate 256 0)
    (fun b hb => by rw [List.eq_of_mem_replicate hb]; norm_num)

end SpiFlash
